import Mathlib

/-!
Shallow embedding of the Synapx FNOL claims-processing core
(`src/field_extractor.py`, `src/routing_engine.py`, `agent.py`) together
with proofs about its extraction, validation, fraud-scanning and routing
behaviour.

Python values flowing through the extracted-fields dictionaries are
modelled by `PyVal` (Python `None`, a string, or a number; numbers are
modelled as exact rationals).  Python dictionaries keyed by strings are
modelled as association lists in insertion order.  Calls into the Python
standard library (`re.search`, `float`, `str.replace`, string formatting)
are modelled explicitly below: `re.search` is kept abstract as a function
parameter supplying the first capture group of the leftmost match, while
`float` and `str.replace` are given executable models.  Code paths on
which the Python code would raise an exception are modelled with
`Except.error`.
-/

inductive PyVal where
  | none
  | str (s : String)
  | num (q : ℚ)
deriving DecidableEq

/-- A Python dict with string keys, as an association list in insertion
order (all dicts built by this program have pairwise distinct keys). -/
abbrev PyDict := List (String × PyVal)

/-- Key lookup in a Python dict. -/
def pyLookup : PyDict → String → Option PyVal
  | [], _ => Option.none
  | (k, v) :: rest, key => if k = key then Option.some v else pyLookup rest key

/-- Python's `d.get(key, dflt)`: the stored value if the key is present
(even when that stored value is `None`), otherwise the default. -/
def pyGetD (d : PyDict) (key : String) (dflt : PyVal) : PyVal :=
  (pyLookup d key).getD dflt

/-- Python's `d.get(key)`, defaulting to `None`. -/
def pyGet (d : PyDict) (key : String) : PyVal :=
  pyGetD d key PyVal.none

/-- Python's `d[key] = v` (update in place, or append preserving insertion
order). -/
def pySet : PyDict → String → PyVal → PyDict
  | [], key, v => [(key, v)]
  | (k, w) :: rest, key, v =>
    if k = key then (k, v) :: rest else (k, w) :: pySet rest key v

/-- Python truthiness for the values that occur in this program:
`None`, the empty string and the number `0` are falsy. -/
def pyTruthy : PyVal → Bool
  | PyVal.none => false
  | PyVal.str s => !(s == "")
  | PyVal.num q => !(q == 0)

/-- Python's substring test `needle in hay`, at the character-list level:
some contiguous run of `hay` equals `needle`. -/
def pyInChars (needle : List Char) : List Char → Bool
  | [] => needle.isEmpty
  | c :: rest => needle.isPrefixOf (c :: rest) || pyInChars needle rest

/-- Python's substring test `needle in hay` on strings. -/
def pyIn (needle hay : String) : Bool := pyInChars needle.data hay.data

/-- Python's `str.lower()` (ASCII model, matching the ASCII field labels
and keywords of this program). -/
def pyLower (s : String) : String := ⟨s.data.map Char.toLower⟩

/-- The characters stripped by Python's `str.strip()`. -/
def isPySpace (c : Char) : Bool :=
  c = ' ' || c = '\t' || c = '\n' || c = '\r' || c = '\x0b' || c = '\x0c'

/-- Python's `str.strip()`: drop leading and trailing whitespace. -/
def pyStripChars (l : List Char) : List Char :=
  ((l.dropWhile isPySpace).reverse.dropWhile isPySpace).reverse

/-- Python's `str.strip()` on strings. -/
def pyStrip (s : String) : String := ⟨pyStripChars s.data⟩

/-! ### Routing engine (`src/routing_engine.py`) -/

/-- `RoutingEngine.FAST_TRACK_THRESHOLD` (damage threshold in dollars). -/
def FAST_TRACK_THRESHOLD : ℚ := 25000

/-- The dictionary `{"recommendedRoute": ..., "reasoning": ...}` returned
by `determine_route`. -/
structure RoutingDecision where
  recommendedRoute : String
  reasoning : String
deriving DecidableEq

/-- Round to the nearest integer with ties to even, as Python's fixed-point
string formatting does. -/
def roundHalfEven (x : ℚ) : ℤ :=
  let f := Int.floor x
  let r := x - f
  if r < 1 / 2 then f
  else if 1 / 2 < r then f + 1
  else if f % 2 = 0 then f else f + 1

/-- Insert thousands separators into a reversed digit list. -/
def commaRev : List Char → Nat → List Char
  | [], _ => []
  | c :: rest, k =>
    if k = 2 && !rest.isEmpty then c :: ',' :: commaRev rest 0
    else c :: commaRev rest (k + 1)

/-- Python's thousands-separated integer format (the `:,` format spec). -/
def pyFormatComma (n : Nat) : String :=
  ⟨(commaRev (toString n).data.reverse 0).reverse⟩

/-- Python's `:,.2f` format, on the exact rational model of floats. -/
def pyFormatComma2f (q : ℚ) : String :=
  let c := roundHalfEven (q * 100)
  let a := c.natAbs
  (if c < 0 then "-" else "") ++ pyFormatComma (a / 100) ++ "." ++
    (if a % 100 < 10 then "0" else "") ++ toString (a % 100)

/-- `RoutingEngine.determine_route`.  `Except.error` marks the places where
the Python code raises: `claim_type` stored as a non-string (in particular
`None`, the extractor's encoding of an absent field) makes
`extracted_fields.get("claim_type", "").lower()` raise `AttributeError`,
and a non-numeric `estimated_damage_value` makes the `<` comparison raise
`TypeError`. -/
def determine_route (extracted_fields : PyDict)
    (missing_fields fraud_indicators : List String) :
    Except String RoutingDecision :=
  -- Rule 1: missing mandatory fields
  if missing_fields ≠ [] then
    Except.ok ⟨"MANUAL_REVIEW",
      "Missing mandatory fields: " ++ String.intercalate ", " missing_fields⟩
  -- Rule 2: fraud indicators
  else if fraud_indicators ≠ [] then
    Except.ok ⟨"INVESTIGATION_FLAG",
      "Potential fraud indicators detected: " ++
        String.intercalate ", " fraud_indicators⟩
  else
    -- Rule 3: injury claims
    match pyGetD extracted_fields "claim_type" (PyVal.str "") with
    | PyVal.str ct =>
      let claim_type := pyLower ct
      if pyIn "injury" claim_type || pyIn "bodily" claim_type ||
          pyIn "personal" claim_type then
        Except.ok ⟨"SPECIALIST_QUEUE",
          "Claim type requires specialist handling (injury/bodily harm involved)"⟩
      else
        -- Rule 4: damage amount
        match pyGetD extracted_fields "estimated_damage_value" (PyVal.num 0) with
        | PyVal.num damage_value =>
          if damage_value < FAST_TRACK_THRESHOLD then
            Except.ok ⟨"FAST_TRACK",
              "Low damage amount ($" ++ pyFormatComma2f damage_value ++ " < $" ++
                pyFormatComma 25000 ++ "). Eligible for expedited processing."⟩
          else
            Except.ok ⟨"STANDARD_REVIEW",
              "High damage amount ($" ++ pyFormatComma2f damage_value ++ " >= $" ++
                pyFormatComma 25000 ++ "). Requires standard review."⟩
        | _ => Except.error "TypeError: unsupported comparison with the damage threshold"
    | _ => Except.error "AttributeError: value of claim_type has no attribute lower"

/-! ### Field validator and fraud scanner (`src/field_extractor.py`) -/

/-- `FieldExtractor.MANDATORY_FIELDS`, in declaration order. -/
def MANDATORY_FIELDS : List String :=
  ["policy_number", "policyholder_name", "incident_date",
   "incident_location", "claim_type", "estimated_damage"]

/-- The placeholder vocabulary of `validate_fields`. -/
def placeholder_values : List String :=
  ["not", "not provided", "n/a", "na", "unknown", "incomplete",
   "insufficient", "missing"]

/-- The per-field test of `FieldExtractor.validate_fields`: missing when
the stored value is falsy (`if not value`), or is a string whose lowered
and stripped form is in the placeholder vocabulary. -/
def isMissingValue (v : PyVal) : Bool :=
  if !pyTruthy v then true
  else
    match v with
    | PyVal.str s => placeholder_values.contains (pyStrip (pyLower s))
    | _ => false

/-- `FieldExtractor.validate_fields`: collect the mandatory fields whose
stored value is missing, in `MANDATORY_FIELDS` order. -/
def validate_fields (extracted_fields : PyDict) : List String :=
  MANDATORY_FIELDS.foldl
    (fun missing field =>
      if isMissingValue (pyGet extracted_fields field) then missing ++ [field]
      else missing) []

/-- The fixed keyword list of `check_for_fraud_indicators`. -/
def fraud_keywords : List String :=
  ["fraud", "inconsistent", "staged", "suspicious", "falsified"]

/-- `FieldExtractor.check_for_fraud_indicators`: keywords of the fixed list
occurring in the lower-cased text. -/
def check_for_fraud_indicators (text : String) : List String :=
  let text_lower := pyLower text
  fraud_keywords.foldl
    (fun indicators keyword =>
      if pyIn keyword text_lower then indicators ++ [keyword] else indicators) []

/-! ### Field extractor (`src/field_extractor.py`) -/

/-- A left-to-right scan replacing occurrences of `old` (non-empty) by
`new`, the semantics of Python's `str.replace`; structural on a fuel
argument that bounds the number of consumed characters. -/
def replaceListFuel (old new : List Char) : Nat → List Char → List Char
  | _, [] => []
  | 0, l => l
  | n + 1, c :: rest =>
    if old ≠ [] ∧ old.isPrefixOf (c :: rest) then
      new ++ replaceListFuel old new n ((c :: rest).drop old.length)
    else
      c :: replaceListFuel old new n rest

/-- The replacement scan with enough fuel for the whole input. -/
def replaceList (old new l : List Char) : List Char :=
  replaceListFuel old new l.length l

/-- Python's `str.replace(old, new)` for non-empty `old` (the only form
this program uses: stripping `","` and `"$"`). -/
def pyReplace (s old new : String) : String :=
  ⟨replaceList old.data new.data s.data⟩

/-- Python's `str.title()` (ASCII model): upper-case the first letter of
every alphabetic run, lower-case the rest. -/
def titleChars : Bool → List Char → List Char
  | _, [] => []
  | prevAlpha, c :: rest =>
    (if c.isAlpha then (if prevAlpha then c.toLower else c.toUpper) else c) ::
      titleChars c.isAlpha rest

/-- Python's `str.title()` on strings. -/
def pyTitle (s : String) : String := ⟨titleChars false s.data⟩

/-- Numeric value of a digit string, most significant digit first. -/
def natOfDigits (l : List Char) : ℕ :=
  l.foldl (fun a c => a * 10 + (c.toNat - 48)) 0

/-- Digits of the exponent of a float literal. -/
def expDigits (l : List Char) : Option ℕ :=
  if l ≠ [] ∧ l.all Char.isDigit then Option.some (natOfDigits l)
  else Option.none

/-- Optionally signed exponent of a float literal. -/
def pyExpo : List Char → Option ℤ
  | '+' :: r => (expDigits r).map (fun n => (n : ℤ))
  | '-' :: r => (expDigits r).map (fun n => -(n : ℤ))
  | r => (expDigits r).map (fun n => (n : ℤ))

/-- Mantissa (with optional fraction and exponent) of a Python float
literal: `digits [. digits] [e/E [sign] digits]`, requiring at least one
mantissa digit. -/
def pyFloatMant (l : List Char) : Option ℚ :=
  match l.dropWhile Char.isDigit with
  | [] =>
    if (l.takeWhile Char.isDigit).isEmpty then Option.none
    else Option.some (natOfDigits (l.takeWhile Char.isDigit) : ℚ)
  | c :: r2 =>
    if c = '.' then
      if (l.takeWhile Char.isDigit).isEmpty && (r2.takeWhile Char.isDigit).isEmpty then
        Option.none
      else
        match r2.dropWhile Char.isDigit with
        | [] =>
          Option.some ((natOfDigits (l.takeWhile Char.isDigit) : ℚ) +
            (natOfDigits (r2.takeWhile Char.isDigit) : ℚ) /
              (10 : ℚ) ^ (r2.takeWhile Char.isDigit).length)
        | e :: r4 =>
          if e = 'e' ∨ e = 'E' then
            (pyExpo r4).map (fun k =>
              ((natOfDigits (l.takeWhile Char.isDigit) : ℚ) +
                (natOfDigits (r2.takeWhile Char.isDigit) : ℚ) /
                  (10 : ℚ) ^ (r2.takeWhile Char.isDigit).length) * (10 : ℚ) ^ k)
          else Option.none
    else if (c = 'e' ∨ c = 'E') ∧ ¬ (l.takeWhile Char.isDigit).isEmpty then
      (pyExpo r2).map (fun k =>
        (natOfDigits (l.takeWhile Char.isDigit) : ℚ) * (10 : ℚ) ^ k)
    else Option.none

/-- The optional sign in front of a float literal's mantissa. -/
def pyFloatSigned (l : List Char) : Option ℚ :=
  match l with
  | [] => pyFloatMant []
  | c :: r =>
    if c = '+' then pyFloatMant r
    else if c = '-' then (pyFloatMant r).map (fun q => -q)
    else pyFloatMant (c :: r)

/-- Python's `float(str)` on finite decimal literals: optional surrounding
whitespace, optional sign, mantissa with optional fraction and exponent.
`Option.none` models `ValueError`.  (The `inf`/`nan` spellings lie outside
this rational-valued model; no input of this program produces them.) -/
def pyFloat (s : String) : Option ℚ :=
  pyFloatSigned (pyStripChars s.data)

/-- Acceptor for the optional fractional part `(\.[0-9]\x7b2\x7d)?` of the
`estimated_damage` capture group. -/
def dmgFrac : List Char → Bool
  | [] => true
  | c :: rest =>
    if c = '.' then
      match rest with
      | [a, b] => a.isDigit && b.isDigit
      | _ => false
    else false

/-- Acceptor for the `(,[0-9]\x7b3\x7d)*(\.[0-9]\x7b2\x7d)?` tail of the
`estimated_damage` capture group. -/
def dmgGroups : List Char → Bool
  | [] => true
  | c :: rest =>
    if c = ',' then
      match rest with
      | a :: b :: c2 :: rest2 =>
        a.isDigit && b.isDigit && c2.isDigit && dmgGroups rest2
      | _ => false
    else dmgFrac (c :: rest)

/-- Acceptor after two leading integer digits (at most one more). -/
def dmgAfter2 : List Char → Bool
  | [] => true
  | c :: rest => if c.isDigit then dmgGroups rest else dmgGroups (c :: rest)

/-- Acceptor after one leading integer digit (at most two more). -/
def dmgAfter1 : List Char → Bool
  | [] => true
  | c :: rest => if c.isDigit then dmgAfter2 rest else dmgGroups (c :: rest)

/-- The whole-string language of the `estimated_damage` capture group, at
the character-list level. -/
def damageGroupOkChars : List Char → Bool
  | c :: rest => c.isDigit && dmgAfter1 rest
  | [] => false

/-- The whole-string language of the `estimated_damage` capture group
`[0-9]\x7b1,3\x7d(,[0-9]\x7b3\x7d)*(\.[0-9]\x7b2\x7d)?` — the strings
`re.search` can bind as group 1 of the damage pattern. -/
def damageGroupOk (s : String) : Bool :=
  damageGroupOkChars s.data

/-- The `estimated_damage` entry of `FIELD_PATTERNS` (literal braces in
the pattern source are written with `\x7b`/`\x7d` escapes). -/
def estimated_damage_pattern : String :=
  "(?:ESTIMATE\\s*(?:AMOUNT|DAMAGE)|ESTIMATED\\s*(?:DAMAGE|LOSS))[:\\s]*\\$?([0-9]\x7b1,3\x7d(?:,[0-9]\x7b3\x7d)*(?:\\.[0-9]\x7b2\x7d)?)"

/-- The `incident_location` entry of `FIELD_PATTERNS`. -/
def incident_location_pattern : String :=
  "(?:LOCATION\\s*OF\\s*(?:LOSS|ACCIDENT)|STREET|ADDRESS|LOC)[:\\s]*([^;\\n]+?)(?=\\n|;|$)"

/-- The `accident_description` entry of `FIELD_PATTERNS`. -/
def accident_description_pattern : String :=
  "(?:DESCRIBE\\s*(?:LOSS|ACCIDENT|DAMAGE)|DESCRIPTION)[:\\s]*([^;]+(?:[;][^;]+)?)"

/-- The secondary pattern of the "street" location heuristic. -/
def street_pattern : String := "(\\w+\\s+street)"

/-- The secondary pattern of the "intersection" location heuristic. -/
def intersection_pattern : String := "intersection\\s+of\\s+([^.]+)"

/-- `FieldExtractor.FIELD_PATTERNS`, in declaration order. -/
def FIELD_PATTERNS : List (String × String) :=
  [("policy_number", "(?:POLICY\\s*(?:NUMBER|#)|POLICY_NUMBER)[:\\s]*([0-9A-Za-z-]+)"),
   ("policyholder_name", "(?:NAME\\s*OF\\s*INSURED|POLICYHOLDER\\s*NAME)[:\\s]*([^,\\n]+)"),
   ("effective_date", "(?:EFFECTIVE\\s*DATE|COVERAGE\\s*PERIOD)[:\\s]*([0-9]\x7b2\x7d[/-][0-9]\x7b2\x7d[/-][0-9]\x7b4\x7d)"),
   ("incident_date", "(?:DATE\\s*OF\\s*(?:LOSS|ACCIDENT)|DATE)[:\\s]*([0-9]\x7b2\x7d[/-][0-9]\x7b2\x7d[/-][0-9]\x7b4\x7d)"),
   ("incident_time", "(?:TIME)[:\\s]*([0-9]\x7b1,2\x7d:[0-9]\x7b2\x7d\\s*(?:AM|PM)?)"),
   ("incident_location", incident_location_pattern),
   ("city_state_zip", "(?:CITY|CITY,\\s*STATE)[:\\s]*([^,\\n]+(?:,[^,\\n]+)*)"),
   ("claimant_name", "(?:NAME\\s*OF\\s*(?:CLAIMANT|CONTACT)|CONTACT\\s*NAME)[:\\s]*([^,\\n]+)"),
   ("third_party", "(?:OTHER\\s*(?:VEHICLE|PARTY)|THIRD\\s*PARTY)[:\\s]*([^\\n]+)"),
   ("contact_phone", "(?:(?:PRIMARY\\s*|SECONDARY\\s*)?PHONE)[:\\s]*([0-9]\x7b3\x7d[.-]?[0-9]\x7b3\x7d[.-]?[0-9]\x7b4\x7d)"),
   ("contact_email", "(?:E-MAIL|EMAIL)[:\\s]*([a-zA-Z0-9._%+-]+@[a-zA-Z0-9.-]+\\.[a-zA-Z]\x7b2,\x7d)"),
   ("asset_type", "(?:INSURED\\s*VEHICLE|ASSET\\s*TYPE)[:\\s]*([^\\n]+)"),
   ("vehicle_vin", "(?:V\\.I\\.N\\.|VIN)[:\\s]*([A-HJ-NPR-Z0-9]\x7b17\x7d)"),
   ("vehicle_plate", "(?:PLATE\\s*NUMBER)[:\\s]*([A-Za-z0-9]\x7b2,8\x7d)"),
   ("claim_type", "(?:CLAIM\\s*TYPE|LINE\\s*OF\\s*BUSINESS)[:\\s]*([^\\n]+)"),
   ("estimated_damage", estimated_damage_pattern),
   ("accident_description", accident_description_pattern)]

/-- The abstract interface to the external regex engine: a call
`re.search(p, t, flags).group(1)` at one of the source's call sites, with
`Option.none` when there is no match, otherwise the text bound by the
first capture group of the leftmost match (flags fixed per call site in
the source). -/
abbrev ReSearch := String → String → Option String

/-- The value stored for one field in the extraction loop of
`extract_fields`: the stripped group-1 text, or `None` when the pattern
has no match. -/
def matchValue (reSearch : ReSearch) (pat text : String) : PyVal :=
  match reSearch pat text with
  | Option.some g => PyVal.str (pyStrip g)
  | Option.none => PyVal.none

/-- The pattern-matching loop of `extract_fields`: every `FIELD_PATTERNS`
key is stored, in declaration order (the keys are pairwise distinct, so
the insertion-order dict is this list). -/
def baseExtract (reSearch : ReSearch) (text : String) : PyDict :=
  FIELD_PATTERNS.map (fun fp => (fp.1, matchValue reSearch fp.2 text))

/-- The cleaning applied to a matched `estimated_damage` string:
`.replace(",", "").replace("$", "")`. -/
def cleanDamage (s : String) : String :=
  pyReplace (pyReplace s "," "") "$" ""

/-- The `incident_location` fallback of `extract_fields`: when the stored
location is falsy and the stored description is truthy, run an ordered
chain of heuristics over the lower-cased description; the first trigger
substring found selects its branch and later branches are not tried. -/
def locationFallback (reSearch : ReSearch) (extracted : PyDict) : PyDict :=
  if pyTruthy (pyGet extracted "incident_location") then extracted
  else
    match pyGet extracted "accident_description" with
    | PyVal.str s =>
      if s = "" then extracted
      else
        let desc := pyLower s
        if pyIn "driveway" desc then
          pySet extracted "incident_location" (PyVal.str "Driveway")
        else if pyIn "street" desc then
          match reSearch street_pattern desc with
          | Option.some m =>
            pySet extracted "incident_location" (PyVal.str (pyTitle m))
          | Option.none => extracted
        else if pyIn "parking" desc then
          pySet extracted "incident_location" (PyVal.str "Parking lot/garage")
        else if pyIn "intersection" desc then
          match reSearch intersection_pattern desc with
          | Option.some m =>
            pySet extracted "incident_location" (PyVal.str (pyTitle m))
          | Option.none => extracted
        else extracted
    | _ => extracted

/-- The damage-normalisation step of `extract_fields`: clean and parse a
truthy `estimated_damage` string, defaulting to 0 when it is absent or
fails to parse (`ValueError`). -/
def damageNormalize (extracted : PyDict) : PyDict :=
  match pyGet extracted "estimated_damage" with
  | PyVal.str s =>
    if s = "" then pySet extracted "estimated_damage_value" (PyVal.num 0)
    else
      match pyFloat (cleanDamage s) with
      | Option.some q => pySet extracted "estimated_damage_value" (PyVal.num q)
      | Option.none => pySet extracted "estimated_damage_value" (PyVal.num 0)
  | _ => pySet extracted "estimated_damage_value" (PyVal.num 0)

/-- `FieldExtractor.extract_fields`: the pattern loop, then the location
fallback, then the damage normalisation. -/
def extract_fields (reSearch : ReSearch) (text : String) : PyDict :=
  damageNormalize (locationFallback reSearch (baseExtract reSearch text))

/-! ### Orchestrator (`agent.py`) -/

/-- Python's `str.endswith`. -/
def pyEndsWith (s sfx : String) : Bool := sfx.data.isSuffixOf s.data

/-- The per-document result record assembled by
`ClaimsProcessingAgent.process_claim`; dict keys that are absent from one
of the two branches are modelled as `Option`-valued fields. -/
structure ClaimResult where
  status : String
  error : Option String
  document_path : Option String
  extractedFields : PyDict
  missingFields : List String
  fraudIndicators : Option (List String)
  recommendedRoute : String
  reasoning : String
deriving DecidableEq

/-- `ClaimsProcessingAgent._clean_extracted_fields`: drop `None` values
and the internal `*_value` fields. -/
def clean_extracted_fields (extracted_fields : PyDict) : PyDict :=
  extracted_fields.filter
    (fun kv => kv.2 ≠ PyVal.none ∧ pyEndsWith kv.1 "_value" = false)

/-- `ClaimsProcessingAgent.process_claim`.  The external Text Source
(`DocumentParser.parse_document`) is modelled by its outcome
`parse_result`; `Except.error e` is the exception caught by the
`try/except` around parsing.  The outer `Except` of the result is an
exception escaping `process_claim` itself (the steps after parsing are
not wrapped in any handler). -/
def process_claim (reSearch : ReSearch) (parse_result : Except String String)
    (document_path : String) : Except String ClaimResult :=
  match parse_result with
  | Except.error e =>
    Except.ok
      { status := "FAILED", error := Option.some e,
        document_path := Option.none, extractedFields := [],
        missingFields := MANDATORY_FIELDS,
        fraudIndicators := Option.none,
        recommendedRoute := "MANUAL_REVIEW",
        reasoning := "Document parsing failed: " ++ e }
  | Except.ok document_text =>
    let extracted := extract_fields reSearch document_text
    let missing := validate_fields extracted
    let fraud := check_for_fraud_indicators document_text
    match determine_route extracted missing fraud with
    | Except.error exc => Except.error exc
    | Except.ok rd =>
      Except.ok
        { status := "SUCCESS", error := Option.none,
          document_path := Option.some document_path,
          extractedFields := clean_extracted_fields extracted,
          missingFields := missing,
          fraudIndicators := Option.some fraud,
          recommendedRoute := rd.recommendedRoute,
          reasoning := rd.reasoning }

/-- A concrete regex-engine instance: the damage pattern matches with
group `"12,345.67"`, every other pattern has no match. -/
def egSearchDamage : ReSearch := fun p _ =>
  if p = estimated_damage_pattern then Option.some "12,345.67"
  else Option.none

/-- A concrete regex-engine instance: no explicit location, a description
mentioning a driveway. -/
def egSearchDriveway : ReSearch := fun p _ =>
  if p = accident_description_pattern then
    Option.some "collision occurred in the driveway"
  else Option.none

/-- A concrete regex-engine instance with no matches at all. -/
def egSearchNone : ReSearch := fun _ _ => Option.none

/-- Extracted fields with `policy_number` present but holding the empty
string, and every other mandatory field present with an ordinary value. -/
def efEmptyPolicyNumber : PyDict :=
  [("policy_number", PyVal.str ""),
   ("policyholder_name", PyVal.str "Jane Doe"),
   ("incident_date", PyVal.str "01/02/2024"),
   ("incident_location", PyVal.str "123 Main St"),
   ("claim_type", PyVal.str "Auto"),
   ("estimated_damage", PyVal.str "5000")]

/-- Extracted fields holding placeholder values in mixed case and with
surrounding whitespace. -/
def efPlaceholders : PyDict :=
  [("policy_number", PyVal.str "N/A"),
   ("policyholder_name", PyVal.str " na "),
   ("incident_date", PyVal.str "Unknown"),
   ("incident_location", PyVal.str "123 Main St"),
   ("claim_type", PyVal.str "Auto"),
   ("estimated_damage", PyVal.str "5000")]

/-! ## Theorems -/

/-- Helper: the append-accumulate loop used by `validate_fields` and
`check_for_fraud_indicators` computes a filter. -/
theorem foldl_append_eq_filter {α : Type} (p : α → Bool) :
    ∀ (l acc : List α),
      l.foldl (fun a x => if p x then a ++ [x] else a) acc = acc ++ l.filter p
  | [], acc => by simp
  | x :: l, acc => by
    by_cases h : p x
    · simp [h, foldl_append_eq_filter p l (acc ++ [x])]
    · simp [h, foldl_append_eq_filter p l acc]

/-- Helper: `pyInChars` decides the contiguous-substring relation. -/
theorem pyInChars_substring_iff (needle hay : List Char) :
    pyInChars needle hay = true ↔ needle <:+: hay := by
  induction hay with
  | nil =>
    simp only [pyInChars, List.isEmpty_iff]
    constructor
    · rintro rfl; exact List.infix_rfl
    · intro h; exact List.eq_nil_of_infix_nil h
  | cons c rest ih =>
    simp only [pyInChars, Bool.or_eq_true, List.isPrefixOf_iff_prefix, ih]
    exact (List.infix_cons_iff).symm

/-- **C1 (code exhibit).** With `claim_type` stored as Python `None` — the
field extractor's encoding of an absent field — and empty missing-fields
and fraud-indicators lists, `determine_route` does not return a route:
`extracted_fields.get("claim_type", "")` returns the stored `None` (the
default applies only when the key itself is absent), so `.lower()` raises
`AttributeError`. -/
theorem c1_determine_route_raises_on_absent_claim_type :
    determine_route [("claim_type", PyVal.none)] [] [] =
      Except.error "AttributeError: value of claim_type has no attribute lower" := by
  rfl

/-- **C2.** The rule chain of `determine_route` is evaluated in the fixed
order missing-fields, fraud-indicators, injury claim type, damage
threshold, first match wins: a non-empty missing-fields list always yields
`MANUAL_REVIEW` (whatever the fraud indicators or extracted fields), and
an empty missing-fields list with non-empty fraud indicators always
yields `INVESTIGATION_FLAG` (whatever the claim type). -/
theorem c2_rule_precedence (ef : PyDict) (missing fraud : List String) :
    (missing ≠ [] → ∃ rd, determine_route ef missing fraud = Except.ok rd ∧
      rd.recommendedRoute = "MANUAL_REVIEW") ∧
    (missing = [] → fraud ≠ [] → ∃ rd, determine_route ef missing fraud = Except.ok rd ∧
      rd.recommendedRoute = "INVESTIGATION_FLAG") := by
  constructor
  · intro h
    refine ⟨⟨"MANUAL_REVIEW",
      "Missing mandatory fields: " ++ String.intercalate ", " missing⟩, ?_, rfl⟩
    unfold determine_route
    rw [if_pos h]
  · intro h h2
    subst h
    refine ⟨⟨"INVESTIGATION_FLAG",
      "Potential fraud indicators detected: " ++ String.intercalate ", " fraud⟩, ?_, rfl⟩
    unfold determine_route
    rw [if_neg (by simp), if_pos h2]

/-- Witness for `c2_rule_precedence` at concrete inputs: missing fields
beat fraud indicators, and fraud indicators beat an injury claim type. -/
theorem c2_rule_precedence_witness :
    (∃ rd, determine_route [("claim_type", PyVal.str "Bodily Injury")]
        ["policy_number"] ["staged"] = Except.ok rd ∧
        rd.recommendedRoute = "MANUAL_REVIEW") ∧
    (∃ rd, determine_route [("claim_type", PyVal.str "Bodily Injury")]
        [] ["staged"] = Except.ok rd ∧
        rd.recommendedRoute = "INVESTIGATION_FLAG") :=
  ⟨(c2_rule_precedence [("claim_type", PyVal.str "Bodily Injury")]
      ["policy_number"] ["staged"]).1 (by simp),
   (c2_rule_precedence [("claim_type", PyVal.str "Bodily Injury")]
      [] ["staged"]).2 rfl (by simp)⟩

/-- **C3.** With no missing fields, no fraud indicators and a non-injury
claim type, `determine_route` compares the numeric damage value against
the fixed threshold 25000 with an inclusive-high boundary: strictly below
routes to `FAST_TRACK`, at or above routes to `STANDARD_REVIEW`. -/
theorem c3_threshold_boundary (ef : PyDict) (ct : String) (q : ℚ)
    (hct : pyGetD ef "claim_type" (PyVal.str "") = PyVal.str ct)
    (h1 : pyIn "injury" (pyLower ct) = false)
    (h2 : pyIn "bodily" (pyLower ct) = false)
    (h3 : pyIn "personal" (pyLower ct) = false)
    (hq : pyGetD ef "estimated_damage_value" (PyVal.num 0) = PyVal.num q) :
    (q < 25000 → ∃ rd, determine_route ef [] [] = Except.ok rd ∧
      rd.recommendedRoute = "FAST_TRACK") ∧
    (25000 ≤ q → ∃ rd, determine_route ef [] [] = Except.ok rd ∧
      rd.recommendedRoute = "STANDARD_REVIEW") := by
  have hbase : determine_route ef [] [] =
      if q < FAST_TRACK_THRESHOLD then
        Except.ok ⟨"FAST_TRACK",
          "Low damage amount ($" ++ pyFormatComma2f q ++ " < $" ++
            pyFormatComma 25000 ++ "). Eligible for expedited processing."⟩
      else
        Except.ok ⟨"STANDARD_REVIEW",
          "High damage amount ($" ++ pyFormatComma2f q ++ " >= $" ++
            pyFormatComma 25000 ++ "). Requires standard review."⟩ := by
    unfold determine_route
    rw [if_neg (by simp), if_neg (by simp), hct, hq]
    simp only [h1, h2, h3, Bool.or_false, Bool.false_eq_true, if_false]
  constructor
  · intro hlt
    refine ⟨⟨"FAST_TRACK",
      "Low damage amount ($" ++ pyFormatComma2f q ++ " < $" ++
        pyFormatComma 25000 ++ "). Eligible for expedited processing."⟩, ?_, rfl⟩
    rw [hbase, if_pos (show q < FAST_TRACK_THRESHOLD from hlt)]
  · intro hge
    refine ⟨⟨"STANDARD_REVIEW",
      "High damage amount ($" ++ pyFormatComma2f q ++ " >= $" ++
        pyFormatComma 25000 ++ "). Requires standard review."⟩, ?_, rfl⟩
    rw [hbase, if_neg (show ¬ q < FAST_TRACK_THRESHOLD from not_lt.mpr hge)]

/-- Witness for `c3_threshold_boundary`: damage 24999.99 fast-tracks,
damage exactly 25000 goes to standard review. -/
theorem c3_threshold_boundary_witness :
    (∃ rd, determine_route [("claim_type", PyVal.str "Auto"),
        ("estimated_damage_value", PyVal.num (2499999 / 100))] [] [] =
      Except.ok rd ∧ rd.recommendedRoute = "FAST_TRACK") ∧
    (∃ rd, determine_route [("claim_type", PyVal.str "Auto"),
        ("estimated_damage_value", PyVal.num 25000)] [] [] =
      Except.ok rd ∧ rd.recommendedRoute = "STANDARD_REVIEW") :=
  ⟨(c3_threshold_boundary
      [("claim_type", PyVal.str "Auto"),
       ("estimated_damage_value", PyVal.num (2499999 / 100))]
      "Auto" (2499999 / 100) rfl (by decide) (by decide)
      (by decide) rfl).1 (by norm_num),
   (c3_threshold_boundary
      [("claim_type", PyVal.str "Auto"),
       ("estimated_damage_value", PyVal.num 25000)]
      "Auto" 25000 rfl (by decide) (by decide)
      (by decide) rfl).2 (by norm_num)⟩

/-- Helper: `validate_fields` as a filter over `MANDATORY_FIELDS`. -/
theorem validate_fields_eq_filter (ef : PyDict) :
    validate_fields ef =
      MANDATORY_FIELDS.filter (fun field => isMissingValue (pyGet ef field)) := by
  rw [validate_fields]
  simpa using
    foldl_append_eq_filter (fun field => isMissingValue (pyGet ef field))
      MANDATORY_FIELDS []

/-- Helper: the fraud scanner as a filter over the fixed keyword list. -/
theorem check_for_fraud_eq_filter (text : String) :
    check_for_fraud_indicators text =
      fraud_keywords.filter (fun k => pyIn k (pyLower text)) := by
  rw [check_for_fraud_indicators]
  simpa using
    foldl_append_eq_filter (fun k => pyIn k (pyLower text)) fraud_keywords []

/-- Helper: the per-field test of `validate_fields`, characterised. -/
theorem isMissingValue_iff (v : PyVal) :
    isMissingValue v = true ↔
      pyTruthy v = false ∨
        ∃ s, v = PyVal.str s ∧
          placeholder_values.contains (pyStrip (pyLower s)) = true := by
  cases v with
  | none => simp [isMissingValue, pyTruthy]
  | str s =>
    by_cases h : s = ""
    · subst h; simp [isMissingValue, pyTruthy]
    · simp [isMissingValue, pyTruthy, h]
  | num q => by_cases h : q = 0 <;> simp [isMissingValue, pyTruthy, h]

/-- **C6.** `validate_fields` returns a subsequence of `MANDATORY_FIELDS`
in declaration order: its elements appear in that fixed order, none is
duplicated, and none lies outside the mandatory set. -/
theorem c6_validate_fields_ordered (ef : PyDict) :
    List.Sublist (validate_fields ef) MANDATORY_FIELDS ∧
    (validate_fields ef).Nodup ∧
    ∀ f, f ∈ validate_fields ef → f ∈ MANDATORY_FIELDS := by
  have hsub : List.Sublist (validate_fields ef) MANDATORY_FIELDS := by
    rw [validate_fields_eq_filter]; exact List.filter_sublist _
  exact ⟨hsub, List.Nodup.sublist hsub (by decide), fun f hf => hsub.subset hf⟩

/-- Witness for `c6_validate_fields_ordered` on the empty mapping (every
mandatory field missing). -/
theorem c6_validate_fields_ordered_witness :
    List.Sublist (validate_fields []) MANDATORY_FIELDS ∧ (validate_fields []).Nodup ∧
    "policy_number" ∈ MANDATORY_FIELDS :=
  ⟨(c6_validate_fields_ordered []).1, (c6_validate_fields_ordered []).2.1,
   (c6_validate_fields_ordered []).2.2 "policy_number" (by decide)⟩

/-- **C7 (counterexample).** `policy_number` stored as the empty string:
the value is present (not absent) and its stripped, lowered form is not in
the placeholder vocabulary, yet `validate_fields` reports the field
missing — refuting the claimed "exactly when" characterisation. -/
theorem c7_counterexample_empty_string :
    "policy_number" ∈ validate_fields efEmptyPolicyNumber ∧
    pyLookup efEmptyPolicyNumber "policy_number" = Option.some (PyVal.str "") ∧
    PyVal.str "" ≠ PyVal.none ∧
    placeholder_values.contains (pyStrip (pyLower "")) = false := by decide

/-- **C7 (amended).** A mandatory field is reported missing exactly when
its stored value is falsy — absent (`None`), the empty string, or the
number 0 — or is a string whose stripped, case-folded form equals one of
the placeholders; placeholder detection is case- and
whitespace-insensitive. -/
theorem c7_missing_field_characterisation (ef : PyDict) (f : String)
    (hf : f ∈ MANDATORY_FIELDS) :
    f ∈ validate_fields ef ↔
      pyTruthy (pyGet ef f) = false ∨
        ∃ s, pyGet ef f = PyVal.str s ∧
          placeholder_values.contains (pyStrip (pyLower s)) = true := by
  rw [validate_fields_eq_filter, List.mem_filter]
  simp only [hf, true_and]
  exact isMissingValue_iff (pyGet ef f)

/-- Witness for `c7_missing_field_characterisation`: `"N/A"`, `" na "` and
`"Unknown"` all count as missing. -/
theorem c7_missing_field_characterisation_witness :
    "policy_number" ∈ validate_fields efPlaceholders ∧
    "policyholder_name" ∈ validate_fields efPlaceholders ∧
    "incident_date" ∈ validate_fields efPlaceholders :=
  ⟨(c7_missing_field_characterisation efPlaceholders "policy_number"
      (by decide)).mpr (Or.inr ⟨"N/A", rfl, by decide⟩),
   (c7_missing_field_characterisation efPlaceholders "policyholder_name"
      (by decide)).mpr (Or.inr ⟨" na ", rfl, by decide⟩),
   (c7_missing_field_characterisation efPlaceholders "incident_date"
      (by decide)).mpr (Or.inr ⟨"Unknown", rfl, by decide⟩)⟩

/-- **C8.** The fraud scanner returns exactly the keywords of the fixed
list occurring as (case-insensitive, boundary-free) substrings of the
lower-cased text, each at most once, in fixed keyword-list order. -/
theorem c8_fraud_indicators (text : String) :
    List.Sublist (check_for_fraud_indicators text) fraud_keywords ∧
    (check_for_fraud_indicators text).Nodup ∧
    ∀ k, k ∈ check_for_fraud_indicators text ↔
      k ∈ fraud_keywords ∧ k.data <:+: (pyLower text).data := by
  have hsub : List.Sublist (check_for_fraud_indicators text) fraud_keywords := by
    rw [check_for_fraud_eq_filter]; exact List.filter_sublist _
  refine ⟨hsub, List.Nodup.sublist hsub (by decide), fun k => ?_⟩
  rw [check_for_fraud_eq_filter, List.mem_filter]
  constructor
  · rintro ⟨hk, hin⟩
    exact ⟨hk, (pyInChars_substring_iff _ _).mp hin⟩
  · rintro ⟨hk, hin⟩
    exact ⟨hk, (pyInChars_substring_iff _ _).mpr hin⟩

/-- Witness for `c8_fraud_indicators`: "STAGED" inside mixed-case text and
"fraud" inside the longer word "fraudulent" are both detected. -/
theorem c8_fraud_indicators_witness :
    "staged" ∈ check_for_fraud_indicators "A STAGED and fraudulent collision" ∧
    "fraud" ∈ check_for_fraud_indicators "A STAGED and fraudulent collision" :=
  ⟨((c8_fraud_indicators "A STAGED and fraudulent collision").2.2 "staged").mpr
    ⟨by decide, (pyInChars_substring_iff _ _).mp (by decide)⟩,
   ((c8_fraud_indicators "A STAGED and fraudulent collision").2.2 "fraud").mpr
    ⟨by decide, (pyInChars_substring_iff _ _).mp (by decide)⟩⟩

/-- **C10.** A mandatory field stored as the empty string — present, and
not a placeholder — is reported missing, because the `if not value`
truthiness test of `validate_fields` treats every falsy value as
missing. -/
theorem c10_empty_string_is_missing (ef : PyDict) (f : String)
    (hf : f ∈ MANDATORY_FIELDS) (hv : pyGet ef f = PyVal.str "") :
    f ∈ validate_fields ef := by
  rw [validate_fields_eq_filter, List.mem_filter]
  refine ⟨hf, ?_⟩
  simp only [hv]
  decide

/-- Witness for `c10_empty_string_is_missing` at a concrete mapping. -/
theorem c10_empty_string_is_missing_witness :
    "claim_type" ∈ validate_fields [("claim_type", PyVal.str "")] :=
  c10_empty_string_is_missing [("claim_type", PyVal.str "")] "claim_type"
    (by decide) rfl

/-- Helper: looking up the key just set. -/
theorem pyLookup_pySet_self (d : PyDict) (k : String) (v : PyVal) :
    pyLookup (pySet d k v) k = Option.some v := by
  induction d with
  | nil => simp [pySet, pyLookup]
  | cons kv rest ih =>
    obtain ⟨k1, v1⟩ := kv
    by_cases h : k1 = k
    · simp [pySet, pyLookup, h]
    · simp [pySet, pyLookup, h, ih]

/-- Helper: setting one key leaves lookups of other keys unchanged. -/
theorem pyLookup_pySet_ne (d : PyDict) (k k2 : String) (v : PyVal)
    (h : k2 ≠ k) :
    pyLookup (pySet d k v) k2 = pyLookup d k2 := by
  induction d with
  | nil => simp [pySet, pyLookup, Ne.symm h]
  | cons kv rest ih =>
    obtain ⟨k1, v1⟩ := kv
    by_cases h1 : k1 = k
    · subst h1
      simp [pySet, pyLookup, Ne.symm h]
    · simp [pySet, pyLookup, h1, ih]

/-- Helper: `pyGet` of the key just set. -/
theorem pyGet_pySet_self (d : PyDict) (k : String) (v : PyVal) :
    pyGet (pySet d k v) k = v := by
  simp [pyGet, pyGetD, pyLookup_pySet_self]

/-- Helper: `pyGet` of another key after a set. -/
theorem pyGet_pySet_ne (d : PyDict) (k k2 : String) (v : PyVal)
    (h : k2 ≠ k) :
    pyGet (pySet d k v) k2 = pyGet d k2 := by
  simp [pyGet, pyGetD, pyLookup_pySet_ne d k k2 v h]

/-- Helper: the location fallback writes only `incident_location`. -/
theorem pyGet_locationFallback_ne (reSearch : ReSearch) (d : PyDict)
    (k : String) (h : k ≠ "incident_location") :
    pyGet (locationFallback reSearch d) k = pyGet d k := by
  have hp : ∀ v, pyGet (pySet d "incident_location" v) k = pyGet d k :=
    fun v => pyGet_pySet_ne d "incident_location" k v h
  unfold locationFallback
  repeat' first
  | rfl
  | exact hp _
  | split
  | dsimp only

/-- Helper: damage normalisation writes only `estimated_damage_value`. -/
theorem pyGet_damageNormalize_ne (d : PyDict) (k : String)
    (h : k ≠ "estimated_damage_value") :
    pyGet (damageNormalize d) k = pyGet d k := by
  have hp : ∀ v, pyGet (pySet d "estimated_damage_value" v) k = pyGet d k :=
    fun v => pyGet_pySet_ne d "estimated_damage_value" k v h
  unfold damageNormalize
  repeat' first
  | rfl
  | exact hp _
  | split

/-- Helper: the value stored by the damage-normalisation step. -/
theorem pyGet_damageNormalize_value (d : PyDict) :
    pyGet (damageNormalize d) "estimated_damage_value" =
      PyVal.num (match pyGet d "estimated_damage" with
        | PyVal.str s =>
          if s = "" then 0 else (pyFloat (cleanDamage s)).getD 0
        | _ => 0) := by
  unfold damageNormalize
  rcases hv : pyGet d "estimated_damage" with _ | s | q
  · simp [pyGet_pySet_self]
  · by_cases hs : s = ""
    · simp [hs, pyGet_pySet_self]
    · rcases hq : pyFloat (cleanDamage s) with _ | q0 <;>
        simp [hs, hq, pyGet_pySet_self]
  · simp [pyGet_pySet_self]

/-- Helper: a digit differs from any non-digit character. -/
theorem digit_ne {c d : Char} (h : c.isDigit = true) (hd : d.isDigit = false) :
    c ≠ d := by
  intro e
  subst e
  rw [h] at hd
  cases hd

/-- Helper: a digit's boolean equality with a non-digit is `false`. -/
theorem digit_beq_false {c d : Char} (h : c.isDigit = true)
    (hd : d.isDigit = false) : (c == d) = false := by
  rw [beq_eq_false_iff_ne]
  exact digit_ne h hd

/-- Helper: with enough fuel, replacing a single character by nothing is
a filter. -/
theorem replaceListFuel_single (c0 : Char) :
    ∀ (n : Nat) (l : List Char), l.length ≤ n →
      replaceListFuel [c0] [] n l = l.filter (fun c => !(c == c0))
  | _, [], _ => by simp [replaceListFuel]
  | 0, c :: rest, hl => by simp at hl
  | n + 1, c :: rest, hl => by
    rw [replaceListFuel]
    have hrest : rest.length ≤ n := by
      simp only [List.length_cons] at hl
      omega
    by_cases h : c0 = c
    · subst h
      rw [if_pos ⟨List.cons_ne_nil _ _, by simp [List.isPrefixOf]⟩]
      simpa using replaceListFuel_single c0 n rest hrest
    · rw [if_neg (by simp [List.isPrefixOf, h])]
      simp [Ne.symm h, replaceListFuel_single c0 n rest hrest]

/-- Helper: replacing a single character by nothing is a filter. -/
theorem replaceList_single (c0 : Char) (l : List Char) :
    replaceList [c0] [] l = l.filter (fun c => !(c == c0)) :=
  replaceListFuel_single c0 l.length l le_rfl

/-- Helper: `takeWhile` passes over a block satisfying the predicate. -/
theorem takeWhile_append_all {α : Type} (p : α → Bool) :
    ∀ (ds r : List α), (∀ c ∈ ds, p c = true) →
      (ds ++ r).takeWhile p = ds ++ r.takeWhile p
  | [], r, _ => by simp
  | d :: ds, r, h => by
    have hd := h d (List.mem_cons_self d ds)
    simp only [List.cons_append, List.takeWhile_cons, hd, if_true]
    rw [takeWhile_append_all p ds r (fun c hc => h c (List.mem_cons_of_mem d hc))]

/-- Helper: `dropWhile` drops a block satisfying the predicate. -/
theorem dropWhile_append_all {α : Type} (p : α → Bool) :
    ∀ (ds r : List α), (∀ c ∈ ds, p c = true) →
      (ds ++ r).dropWhile p = r.dropWhile p
  | [], r, _ => by simp
  | d :: ds, r, h => by
    have hd := h d (List.mem_cons_self d ds)
    simp only [List.cons_append, List.dropWhile_cons, hd, if_true]
    exact dropWhile_append_all p ds r (fun c hc => h c (List.mem_cons_of_mem d hc))

/-- Helper: `dropWhile` is the identity when no element satisfies the
predicate. -/
theorem dropWhile_eq_self_of_all {α : Type} (p : α → Bool) :
    ∀ l : List α, (∀ c ∈ l, p c = false) → l.dropWhile p = l
  | [], _ => by simp
  | c :: rest, h => by
    simp only [List.dropWhile_cons, h c (List.mem_cons_self c rest)]
    simp

/-- Helper: stripping a list with no whitespace at all is the identity. -/
theorem pyStripChars_of_no_space (l : List Char)
    (h : ∀ c ∈ l, isPySpace c = false) : pyStripChars l = l := by
  unfold pyStripChars
  rw [dropWhile_eq_self_of_all _ l h,
    dropWhile_eq_self_of_all _ l.reverse
      (fun c hc => h c (List.mem_reverse.mp hc)), List.reverse_reverse]

/-- Helper: digits are not Python whitespace. -/
theorem isPySpace_of_digit {c : Char} (h : c.isDigit = true) :
    isPySpace c = false := by
  unfold isPySpace
  rw [decide_eq_false (digit_ne h (by decide)),
    decide_eq_false (digit_ne h (by decide)),
    decide_eq_false (digit_ne h (by decide)),
    decide_eq_false (digit_ne h (by decide)),
    decide_eq_false (digit_ne h (by decide)),
    decide_eq_false (digit_ne h (by decide))]
  rfl

/-- Helper: a digit is never a comma. -/
theorem digit_beq_comma_false {c : Char} (h : c.isDigit = true) :
    (c == ',') = false :=
  digit_beq_false h (by decide)

/-- Helper: a digit is never a dollar sign. -/
theorem digit_beq_dollar_false {c : Char} (h : c.isDigit = true) :
    (c == '$') = false :=
  digit_beq_false h (by decide)

/-- Helper: strings accepted by `dmgFrac` are empty or a two-digit
fraction. -/
theorem dmgFrac_structure (l : List Char) (h : dmgFrac l = true) :
    l = [] ∨ ∃ a b, l = ['.', a, b] ∧ a.isDigit = true ∧ b.isDigit = true := by
  rcases l with _ | ⟨c, _ | ⟨a, _ | ⟨b, _ | ⟨c2, rest3⟩⟩⟩⟩
  · exact Or.inl rfl
  · simp [dmgFrac] at h
  · simp [dmgFrac] at h
  · by_cases hc : c = '.'
    · subst hc
      simp only [dmgFrac, if_true, Bool.and_eq_true, eq_self_iff_true] at h
      exact Or.inr ⟨a, b, rfl, h.1, h.2⟩
    · simp [dmgFrac, hc] at h
  · simp [dmgFrac] at h

/-- Helper (length-bounded induction): strings accepted by `dmgGroups`,
with commas removed, are a digit block followed by an optional two-digit
fraction. -/
theorem dmgGroups_structure_bounded :
    ∀ (n : ℕ) (l : List Char), l.length ≤ n → dmgGroups l = true →
      ∃ ds fr, l.filter (fun c => !(c == ',')) = ds ++ fr ∧
        (∀ c ∈ ds, c.isDigit = true) ∧
        (fr = [] ∨ ∃ a b, fr = ['.', a, b] ∧ a.isDigit = true ∧ b.isDigit = true) := by
  intro n
  induction n with
  | zero =>
    intro l hl _
    have hnil : l = [] := List.eq_nil_of_length_eq_zero (Nat.le_zero.mp hl)
    subst hnil
    exact ⟨[], [], by simp, by simp, Or.inl rfl⟩
  | succ n ih =>
    intro l hl h
    rcases l with _ | ⟨c, rest⟩
    · exact ⟨[], [], by simp, by simp, Or.inl rfl⟩
    by_cases hc : c = ','
    · subst hc
      rcases rest with _ | ⟨a, _ | ⟨b, _ | ⟨c2, rest2⟩⟩⟩
      · simp [dmgGroups] at h
      · simp [dmgGroups] at h
      · simp [dmgGroups] at h
      · replace h :
            (a.isDigit && b.isDigit && c2.isDigit && dmgGroups rest2) = true := h
        simp only [Bool.and_eq_true] at h
        obtain ⟨⟨⟨ha, hb⟩, hc2⟩, hrec⟩ := h
        have hlen : rest2.length ≤ n := by
          simp only [List.length_cons] at hl
          omega
        obtain ⟨ds, fr, h1, h2, h3⟩ := ih rest2 hlen hrec
        refine ⟨a :: b :: c2 :: ds, fr, ?_, ?_, h3⟩
        · simp only [List.filter_cons, digit_beq_comma_false ha,
            digit_beq_comma_false hb, digit_beq_comma_false hc2]
          simp [h1]
        · intro x hx
          simp only [List.mem_cons] at hx
          rcases hx with rfl | rfl | rfl | hx
          · exact ha
          · exact hb
          · exact hc2
          · exact h2 x hx
    · unfold dmgGroups at h
      rw [if_neg hc] at h
      rcases dmgFrac_structure (c :: rest) h with h4 | ⟨a, b, h4, ha, hb⟩
      · exact absurd h4 (List.cons_ne_nil c rest)
      · rw [h4]
        refine ⟨[], ['.', a, b], ?_, by simp, Or.inr ⟨a, b, rfl, ha, hb⟩⟩
        simp only [List.filter_cons, digit_beq_comma_false ha,
          digit_beq_comma_false hb, List.filter_nil]
        rfl

/-- Helper: strings accepted by `dmgGroups`, with commas removed, are a
digit block followed by an optional two-digit fraction. -/
theorem dmgGroups_structure (l : List Char) (h : dmgGroups l = true) :
    ∃ ds fr, l.filter (fun c => !(c == ',')) = ds ++ fr ∧
      (∀ c ∈ ds, c.isDigit = true) ∧
      (fr = [] ∨ ∃ a b, fr = ['.', a, b] ∧ a.isDigit = true ∧ b.isDigit = true) :=
  dmgGroups_structure_bounded l.length l le_rfl h

/-- Helper: structure after up to two more integer digits (`dmgAfter2`). -/
theorem dmgAfter2_structure (l : List Char) (h : dmgAfter2 l = true) :
    ∃ ds fr, l.filter (fun c => !(c == ',')) = ds ++ fr ∧
      (∀ c ∈ ds, c.isDigit = true) ∧
      (fr = [] ∨ ∃ a b, fr = ['.', a, b] ∧ a.isDigit = true ∧ b.isDigit = true) := by
  cases l with
  | nil => exact ⟨[], [], by simp, by simp, Or.inl rfl⟩
  | cons c rest =>
    replace h :
        (if c.isDigit = true then dmgGroups rest else dmgGroups (c :: rest)) =
          true := h
    by_cases hd : c.isDigit = true
    · rw [if_pos hd] at h
      obtain ⟨ds, fr, h1, h2, h3⟩ := dmgGroups_structure rest h
      refine ⟨c :: ds, fr, ?_, ?_, h3⟩
      · simp only [List.filter_cons, digit_beq_comma_false hd]
        simp [h1]
      · intro x hx
        simp only [List.mem_cons] at hx
        rcases hx with rfl | hx
        · exact hd
        · exact h2 x hx
    · rw [if_neg hd] at h
      exact dmgGroups_structure (c :: rest) h

/-- Helper: structure after one leading integer digit (`dmgAfter1`). -/
theorem dmgAfter1_structure (l : List Char) (h : dmgAfter1 l = true) :
    ∃ ds fr, l.filter (fun c => !(c == ',')) = ds ++ fr ∧
      (∀ c ∈ ds, c.isDigit = true) ∧
      (fr = [] ∨ ∃ a b, fr = ['.', a, b] ∧ a.isDigit = true ∧ b.isDigit = true) := by
  cases l with
  | nil => exact ⟨[], [], by simp, by simp, Or.inl rfl⟩
  | cons c rest =>
    replace h :
        (if c.isDigit = true then dmgAfter2 rest else dmgGroups (c :: rest)) =
          true := h
    by_cases hd : c.isDigit = true
    · rw [if_pos hd] at h
      obtain ⟨ds, fr, h1, h2, h3⟩ := dmgAfter2_structure rest h
      refine ⟨c :: ds, fr, ?_, ?_, h3⟩
      · simp only [List.filter_cons, digit_beq_comma_false hd]
        simp [h1]
      · intro x hx
        simp only [List.mem_cons] at hx
        rcases hx with rfl | hx
        · exact hd
        · exact h2 x hx
    · rw [if_neg hd] at h
      exact dmgGroups_structure (c :: rest) h

/-- Helper: a damage capture group, with commas removed, is a non-empty
digit block followed by an optional two-digit fraction. -/
theorem damageGroup_clean_structure (l : List Char)
    (h : damageGroupOkChars l = true) :
    ∃ ds fr, l.filter (fun c => !(c == ',')) = ds ++ fr ∧ ds ≠ [] ∧
      (∀ c ∈ ds, c.isDigit = true) ∧
      (fr = [] ∨ ∃ a b, fr = ['.', a, b] ∧ a.isDigit = true ∧ b.isDigit = true) := by
  cases l with
  | nil => exact Bool.noConfusion h
  | cons c rest =>
    replace h : (c.isDigit && dmgAfter1 rest) = true := h
    rw [Bool.and_eq_true] at h
    obtain ⟨hd, h1⟩ := h
    obtain ⟨ds, fr, h2, h3, h4⟩ := dmgAfter1_structure rest h1
    refine ⟨c :: ds, fr, ?_, List.cons_ne_nil c ds, ?_, h4⟩
    · simp only [List.filter_cons, digit_beq_comma_false hd]
      simp [h2]
    · intro x hx
      simp only [List.mem_cons] at hx
      rcases hx with rfl | hx
      · exact hd
      · exact h3 x hx

/-- Helper: `takeWhile` is the identity when all elements satisfy the
predicate. -/
theorem takeWhile_eq_self_of_all {α : Type} (p : α → Bool) :
    ∀ l : List α, (∀ c ∈ l, p c = true) → l.takeWhile p = l
  | [], _ => by simp
  | c :: rest, h => by
    simp only [List.takeWhile_cons, h c (List.mem_cons_self c rest), if_true]
    rw [takeWhile_eq_self_of_all p rest
      (fun x hx => h x (List.mem_cons_of_mem c hx))]

/-- Helper: `dropWhile` empties a list whose elements all satisfy the
predicate. -/
theorem dropWhile_eq_nil_of_all {α : Type} (p : α → Bool) :
    ∀ l : List α, (∀ c ∈ l, p c = true) → l.dropWhile p = []
  | [], _ => by simp
  | c :: rest, h => by
    simp only [List.dropWhile_cons, h c (List.mem_cons_self c rest), if_true]
    exact dropWhile_eq_nil_of_all p rest
      (fun x hx => h x (List.mem_cons_of_mem c hx))

/-- Helper: `pyFloatMant` succeeds with a non-negative value on a
non-empty digit block followed by an optional two-digit fraction. -/
theorem pyFloatMant_digits (ds fr : List Char) (hne : ds ≠ [])
    (hd : ∀ c ∈ ds, c.isDigit = true)
    (hfr : fr = [] ∨
      ∃ a b, fr = ['.', a, b] ∧ a.isDigit = true ∧ b.isDigit = true) :
    ∃ q : ℚ, pyFloatMant (ds ++ fr) = Option.some q ∧ 0 ≤ q := by
  have hie : ds.isEmpty = false := by
    rcases ds with _ | ⟨x, xs⟩
    · exact absurd rfl hne
    · rfl
  rcases hfr with rfl | ⟨a, b, rfl, ha, hb⟩
  · refine ⟨(natOfDigits ds : ℚ), ?_, by positivity⟩
    rw [List.append_nil]
    have h1 : ds.takeWhile Char.isDigit = ds :=
      takeWhile_eq_self_of_all _ ds hd
    have h2 : ds.dropWhile Char.isDigit = [] :=
      dropWhile_eq_nil_of_all _ ds hd
    unfold pyFloatMant
    rw [h2, h1]
    simp [hie]
  · have h1 : (ds ++ ['.', a, b]).takeWhile Char.isDigit = ds := by
      rw [takeWhile_append_all Char.isDigit ds ['.', a, b] hd]
      simp [List.takeWhile_cons, show ('.').isDigit = false from rfl]
    have h2 : (ds ++ ['.', a, b]).dropWhile Char.isDigit = '.' :: [a, b] := by
      rw [dropWhile_append_all Char.isDigit ds ['.', a, b] hd]
      simp [List.dropWhile_cons, show ('.').isDigit = false from rfl]
    have h3 : ([a, b] : List Char).takeWhile Char.isDigit = [a, b] := by
      simp [List.takeWhile_cons, ha, hb]
    have h4 : ([a, b] : List Char).dropWhile Char.isDigit = [] := by
      simp [List.dropWhile_cons, ha, hb]
    refine ⟨(natOfDigits ds : ℚ) +
      (natOfDigits [a, b] : ℚ) / (10 : ℚ) ^ (([a, b] : List Char).length),
      ?_, by positivity⟩
    unfold pyFloatMant
    rw [h2, h1]
    simp only [h3, h4, hie, Bool.false_and, Bool.if_false_left]
    simp [hie]

/-- Helper: cleaning (comma and dollar removal) and parsing a damage
capture group always succeeds, with a non-negative rational value. -/
theorem pyFloat_cleanDamage_of_ok (s : String) (h : damageGroupOk s = true) :
    ∃ q : ℚ, pyFloat (cleanDamage s) = Option.some q ∧ 0 ≤ q := by
  obtain ⟨ds, fr, h1, hne, hd, hfr⟩ := damageGroup_clean_structure s.data h
  have hcomma : (pyReplace s "," "").data = ds ++ fr := by
    have e1 : (pyReplace s "," "").data = replaceList [','] [] s.data := rfl
    rw [e1, replaceList_single ',' s.data, h1]
  have hall : ∀ c ∈ ds ++ fr, c.isDigit = true ∨ c = '.' := by
    intro c hc
    rcases List.mem_append.mp hc with hc | hc
    · exact Or.inl (hd c hc)
    · rcases hfr with rfl | ⟨a, b, rfl, ha, hb⟩
      · cases hc
      · simp only [List.mem_cons] at hc
        rcases hc with rfl | rfl | rfl | hc
        · exact Or.inr rfl
        · exact Or.inl ha
        · exact Or.inl hb
        · cases hc
  have hdollar : (cleanDamage s).data = ds ++ fr := by
    have e2 : (cleanDamage s).data =
        replaceList ['$'] [] (pyReplace s "," "").data := rfl
    rw [e2, hcomma, replaceList_single '$' (ds ++ fr)]
    rw [List.filter_eq_self.mpr]
    intro c hc
    rcases hall c hc with hdig | rfl
    · rw [digit_beq_dollar_false hdig]
      rfl
    · rfl
  have hnospace : ∀ c ∈ ds ++ fr, isPySpace c = false := by
    intro c hc
    rcases hall c hc with hdig | rfl
    · exact isPySpace_of_digit hdig
    · rfl
  have hstrip : pyStripChars (cleanDamage s).data = ds ++ fr := by
    rw [hdollar]
    exact pyStripChars_of_no_space _ hnospace
  obtain ⟨d0, ds2, rfl⟩ : ∃ d0 ds2, ds = d0 :: ds2 := by
    rcases ds with _ | ⟨d0, ds2⟩
    · exact absurd rfl hne
    · exact ⟨d0, ds2, rfl⟩
  have hd0 : d0.isDigit = true := hd d0 (List.mem_cons_self d0 ds2)
  obtain ⟨q, hq, hq0⟩ := pyFloatMant_digits (d0 :: ds2) fr hne hd hfr
  refine ⟨q, ?_, hq0⟩
  unfold pyFloat
  rw [hstrip, List.cons_append]
  have e3 : pyFloatSigned (d0 :: (ds2 ++ fr)) =
      (if d0 = '+' then pyFloatMant (ds2 ++ fr)
       else if d0 = '-' then (pyFloatMant (ds2 ++ fr)).map (fun q => -q)
       else pyFloatMant (d0 :: (ds2 ++ fr))) := rfl
  rw [e3, if_neg (digit_ne hd0 (by decide)), if_neg (digit_ne hd0 (by decide))]
  rw [show d0 :: (ds2 ++ fr) = (d0 :: ds2) ++ fr from rfl]
  exact hq

/-- Helper: the extraction loop stores the `estimated_damage` match. -/
theorem pyGet_baseExtract_estimated_damage (reSearch : ReSearch) (text : String) :
    pyGet (baseExtract reSearch text) "estimated_damage" =
      matchValue reSearch estimated_damage_pattern text := rfl

/-- Helper: the extraction loop stores the `incident_location` match. -/
theorem pyGet_baseExtract_incident_location (reSearch : ReSearch) (text : String) :
    pyGet (baseExtract reSearch text) "incident_location" =
      matchValue reSearch incident_location_pattern text := rfl

/-- Helper: the extraction loop stores the `accident_description` match. -/
theorem pyGet_baseExtract_accident_description (reSearch : ReSearch) (text : String) :
    pyGet (baseExtract reSearch text) "accident_description" =
      matchValue reSearch accident_description_pattern text := rfl

/-- **C4.** `extract_fields` always stores a non-negative numeric
`estimated_damage_value`: the matched damage string with `,` and `$`
removed and parsed as a floating amount, or 0 when the pattern has no
match or parsing fails.  The hypothesis states that the external regex
engine only binds group 1 of the damage pattern to a string of the
group's language `[0-9]\x7b1,3\x7d(,[0-9]\x7b3\x7d)*(\.[0-9]\x7b2\x7d)?`
(modulo the strip applied by the extraction loop). -/
theorem c4_estimated_damage_value (reSearch : ReSearch) (text : String)
    (hconf : ∀ g, reSearch estimated_damage_pattern text = Option.some g →
      damageGroupOk (pyStrip g) = true) :
    ∃ q : ℚ,
      pyGet (extract_fields reSearch text) "estimated_damage_value" =
        PyVal.num q ∧ 0 ≤ q ∧
      q = (match reSearch estimated_damage_pattern text with
           | Option.some g => (pyFloat (cleanDamage (pyStrip g))).getD 0
           | Option.none => 0) := by
  have hfall : pyGet (locationFallback reSearch (baseExtract reSearch text))
      "estimated_damage" = matchValue reSearch estimated_damage_pattern text := by
    rw [pyGet_locationFallback_ne reSearch _ _ (by decide)]
    exact pyGet_baseExtract_estimated_damage reSearch text
  have hval := pyGet_damageNormalize_value
    (locationFallback reSearch (baseExtract reSearch text))
  rw [hfall] at hval
  rcases hre : reSearch estimated_damage_pattern text with _ | g
  · have hmv : matchValue reSearch estimated_damage_pattern text = PyVal.none := by
      simp [matchValue, hre]
    rw [hmv] at hval
    exact ⟨0, hval, le_rfl, rfl⟩
  · have hg := hconf g hre
    have hmv : matchValue reSearch estimated_damage_pattern text =
        PyVal.str (pyStrip g) := by
      simp [matchValue, hre]
    rw [hmv] at hval
    obtain ⟨q, hq, hq0⟩ := pyFloat_cleanDamage_of_ok (pyStrip g) hg
    have hsne : pyStrip g ≠ "" := by
      intro e
      rw [e] at hg
      exact Bool.noConfusion hg
    refine ⟨q, ?_, hq0, ?_⟩
    · rw [show (match PyVal.str (pyStrip g) with
          | PyVal.str s =>
            if s = "" then (0 : ℚ) else (pyFloat (cleanDamage s)).getD 0
          | _ => (0 : ℚ)) =
          (if pyStrip g = "" then (0 : ℚ)
           else (pyFloat (cleanDamage (pyStrip g))).getD 0) from rfl,
        if_neg hsne, hq, Option.getD_some] at hval
      exact hval
    · rw [show (match Option.some g with
          | Option.some g2 => (pyFloat (cleanDamage (pyStrip g2))).getD 0
          | Option.none => (0 : ℚ)) =
          (pyFloat (cleanDamage (pyStrip g))).getD 0 from rfl,
        hq, Option.getD_some]

/-- Helper: the concrete parse of the cleaned string "12,345.67". -/
theorem pyFloat_cleanDamage_example :
    pyFloat (cleanDamage "12,345.67") = Option.some (1234567 / 100 : ℚ) := by
  have h0 : pyStripChars (cleanDamage "12,345.67").data =
      ['1', '2', '3', '4', '5', '.', '6', '7'] := by decide
  unfold pyFloat
  rw [h0]
  rw [show pyFloatSigned ['1', '2', '3', '4', '5', '.', '6', '7'] =
      pyFloatMant ['1', '2', '3', '4', '5', '.', '6', '7'] from rfl]
  unfold pyFloatMant
  rw [show (['1', '2', '3', '4', '5', '.', '6', '7'] : List Char).dropWhile
      Char.isDigit = ['.', '6', '7'] from by decide]
  rw [show (['1', '2', '3', '4', '5', '.', '6', '7'] : List Char).takeWhile
      Char.isDigit = ['1', '2', '3', '4', '5'] from by decide]
  norm_num [natOfDigits]
  rw [show (['6', '7'] : List Char).dropWhile Char.isDigit = [] from by decide]
  rw [show (['6', '7'] : List Char).takeWhile Char.isDigit = ['6', '7'] from by decide]
  norm_num [natOfDigits, show ('1'.toNat - 48 : ℕ) = 1 from rfl,
    show ('2'.toNat - 48 : ℕ) = 2 from rfl, show ('3'.toNat - 48 : ℕ) = 3 from rfl,
    show ('4'.toNat - 48 : ℕ) = 4 from rfl, show ('5'.toNat - 48 : ℕ) = 5 from rfl,
    show ('6'.toNat - 48 : ℕ) = 6 from rfl, show ('7'.toNat - 48 : ℕ) = 7 from rfl]

/-- Witness for `c4_estimated_damage_value`, with the concrete engine
binding the damage group to `"12,345.67"`; the second conjunct checks the
concrete parsed value 12345.67. -/
theorem c4_estimated_damage_value_witness :
    (∃ q : ℚ,
      pyGet (extract_fields egSearchDamage "ESTIMATED DAMAGE: $12,345.67")
        "estimated_damage_value" = PyVal.num q ∧ 0 ≤ q ∧
      q = (match egSearchDamage estimated_damage_pattern
             "ESTIMATED DAMAGE: $12,345.67" with
           | Option.some g => (pyFloat (cleanDamage (pyStrip g))).getD 0
           | Option.none => 0)) ∧
    pyGet (extract_fields egSearchDamage "ESTIMATED DAMAGE: $12,345.67")
      "estimated_damage_value" = PyVal.num (1234567 / 100) := by
  have happ := c4_estimated_damage_value egSearchDamage
    "ESTIMATED DAMAGE: $12,345.67"
    (by
      intro g hg
      have he : Option.some "12,345.67" = Option.some g := by
        simpa [egSearchDamage] using hg
      cases he
      decide)
  refine ⟨happ, ?_⟩
  obtain ⟨q, hq1, -, hq3⟩ := happ
  have hre : egSearchDamage estimated_damage_pattern
      "ESTIMATED DAMAGE: $12,345.67" = Option.some "12,345.67" := by
    simp [egSearchDamage]
  rw [hre] at hq3
  rw [show (match Option.some "12,345.67" with
      | Option.some g => (pyFloat (cleanDamage (pyStrip g))).getD 0
      | Option.none => (0 : ℚ)) =
      (pyFloat (cleanDamage (pyStrip "12,345.67"))).getD 0 from rfl] at hq3
  rw [show pyStrip "12,345.67" = "12,345.67" from by decide,
    pyFloat_cleanDamage_example, Option.getD_some] at hq3
  rw [hq1, hq3]

/-- Helper: the full heuristic chain of the location fallback, for a dict
whose stored location is absent (`None`) and whose stored description is
the string `s`. -/
theorem locationFallback_chain (reSearch : ReSearch) (d : PyDict) (s : String)
    (hl : pyGet d "incident_location" = PyVal.none)
    (hdsc : pyGet d "accident_description" = PyVal.str s) :
    pyGet (locationFallback reSearch d) "incident_location" =
      (if s = "" then PyVal.none
       else if pyIn "driveway" (pyLower s) = true then PyVal.str "Driveway"
       else if pyIn "street" (pyLower s) = true then
         (match reSearch street_pattern (pyLower s) with
          | Option.some m => PyVal.str (pyTitle m)
          | Option.none => PyVal.none)
       else if pyIn "parking" (pyLower s) = true then
         PyVal.str "Parking lot/garage"
       else if pyIn "intersection" (pyLower s) = true then
         (match reSearch intersection_pattern (pyLower s) with
          | Option.some m => PyVal.str (pyTitle m)
          | Option.none => PyVal.none)
       else PyVal.none) := by
  unfold locationFallback
  rw [hl, hdsc]
  rw [if_neg (show ¬ pyTruthy PyVal.none = true from by decide)]
  dsimp only
  by_cases hs : s = ""
  · rw [if_pos hs, if_pos hs]
    exact hl
  · rw [if_neg hs, if_neg hs]
    by_cases h1 : pyIn "driveway" (pyLower s) = true
    · rw [if_pos h1, if_pos h1, pyGet_pySet_self]
    · rw [if_neg h1, if_neg h1]
      by_cases h2 : pyIn "street" (pyLower s) = true
      · rw [if_pos h2, if_pos h2]
        rcases hm : reSearch street_pattern (pyLower s) with _ | m
        · exact hl
        · exact pyGet_pySet_self d "incident_location" (PyVal.str (pyTitle m))
      · rw [if_neg h2, if_neg h2]
        by_cases h3 : pyIn "parking" (pyLower s) = true
        · rw [if_pos h3, if_pos h3, pyGet_pySet_self]
        · rw [if_neg h3, if_neg h3]
          by_cases h4 : pyIn "intersection" (pyLower s) = true
          · rw [if_pos h4, if_pos h4]
            rcases hm : reSearch intersection_pattern (pyLower s) with _ | m
            · exact hl
            · exact pyGet_pySet_self d "incident_location" (PyVal.str (pyTitle m))
          · rw [if_neg h4, if_neg h4]
            exact hl

/-- **C9.** When the `incident_location` pattern has no match and the
`accident_description` pattern matches, the fallback heuristics are
applied to the lower-cased stored description in the fixed precedence
driveway, street, parking, intersection; only the first heuristic whose
trigger substring occurs applies (a "driveway" description yields
location "Driveway" whatever the later triggers), and when no trigger
occurs the location remains absent. -/
theorem c9_location_fallback (reSearch : ReSearch) (text g : String)
    (hloc : reSearch incident_location_pattern text = Option.none)
    (hdesc : reSearch accident_description_pattern text = Option.some g) :
    (pyIn "driveway" (pyLower (pyStrip g)) = true →
      pyGet (extract_fields reSearch text) "incident_location" =
        PyVal.str "Driveway") ∧
    (pyIn "driveway" (pyLower (pyStrip g)) = false →
     pyIn "street" (pyLower (pyStrip g)) = true →
      pyGet (extract_fields reSearch text) "incident_location" =
        (match reSearch street_pattern (pyLower (pyStrip g)) with
         | Option.some m => PyVal.str (pyTitle m)
         | Option.none => PyVal.none)) ∧
    (pyIn "driveway" (pyLower (pyStrip g)) = false →
     pyIn "street" (pyLower (pyStrip g)) = false →
     pyIn "parking" (pyLower (pyStrip g)) = true →
      pyGet (extract_fields reSearch text) "incident_location" =
        PyVal.str "Parking lot/garage") ∧
    (pyIn "driveway" (pyLower (pyStrip g)) = false →
     pyIn "street" (pyLower (pyStrip g)) = false →
     pyIn "parking" (pyLower (pyStrip g)) = false →
     pyIn "intersection" (pyLower (pyStrip g)) = true →
      pyGet (extract_fields reSearch text) "incident_location" =
        (match reSearch intersection_pattern (pyLower (pyStrip g)) with
         | Option.some m => PyVal.str (pyTitle m)
         | Option.none => PyVal.none)) ∧
    (pyIn "driveway" (pyLower (pyStrip g)) = false →
     pyIn "street" (pyLower (pyStrip g)) = false →
     pyIn "parking" (pyLower (pyStrip g)) = false →
     pyIn "intersection" (pyLower (pyStrip g)) = false →
      pyGet (extract_fields reSearch text) "incident_location" =
        PyVal.none) := by
  have hl : pyGet (baseExtract reSearch text) "incident_location" =
      PyVal.none := by
    rw [pyGet_baseExtract_incident_location]
    simp [matchValue, hloc]
  have hdsc : pyGet (baseExtract reSearch text) "accident_description" =
      PyVal.str (pyStrip g) := by
    rw [pyGet_baseExtract_accident_description]
    simp [matchValue, hdesc]
  have hfinal : pyGet (extract_fields reSearch text) "incident_location" =
      pyGet (locationFallback reSearch (baseExtract reSearch text))
        "incident_location" :=
    pyGet_damageNormalize_ne _ _ (by decide)
  have hchain := locationFallback_chain reSearch (baseExtract reSearch text)
    (pyStrip g) hl hdsc
  rw [hfinal, hchain]
  by_cases hs : pyStrip g = ""
  · rw [if_pos hs, hs]
    exact ⟨fun h => absurd h (by decide), fun h1 h => absurd h (by decide),
      fun h1 h2 h => absurd h (by decide), fun h1 h2 h3 h => absurd h (by decide),
      fun h1 h2 h3 h4 => rfl⟩
  · rw [if_neg hs]
    refine ⟨fun h1 => ?_, fun h1 h2 => ?_, fun h1 h2 h3 => ?_,
      fun h1 h2 h3 h4 => ?_, fun h1 h2 h3 h4 => ?_⟩
    · rw [if_pos h1]
    · rw [if_neg (by simp [h1]), if_pos h2]
    · rw [if_neg (by simp [h1]), if_neg (by simp [h2]), if_pos h3]
    · rw [if_neg (by simp [h1]), if_neg (by simp [h2]), if_neg (by simp [h3]),
        if_pos h4]
    · rw [if_neg (by simp [h1]), if_neg (by simp [h2]), if_neg (by simp [h3]),
        if_neg (by simp [h4])]

/-- Witness for `c9_location_fallback`: the description
"collision occurred in the driveway" with no explicit location yields
`incident_location` = "Driveway". -/
theorem c9_location_fallback_witness :
    pyGet (extract_fields egSearchDriveway "doc.txt") "incident_location" =
      PyVal.str "Driveway" :=
  (c9_location_fallback egSearchDriveway "doc.txt"
    "collision occurred in the driveway" (by decide) (by decide)).1 (by decide)

/-- **C5.** When text acquisition fails, the result record has status
FAILED, an empty extracted-fields mapping, the full mandatory field set
(in declaration order) as missing fields, route `MANUAL_REVIEW` with a
reasoning describing the parse failure — and never `FAST_TRACK`. -/
theorem c5_parse_failure_record (reSearch : ReSearch) (e document_path : String) :
    ∃ r : ClaimResult,
      process_claim reSearch (Except.error e) document_path = Except.ok r ∧
      r.status = "FAILED" ∧ r.extractedFields = [] ∧
      r.missingFields = MANDATORY_FIELDS ∧
      r.recommendedRoute = "MANUAL_REVIEW" ∧
      r.reasoning = "Document parsing failed: " ++ e ∧
      r.recommendedRoute ≠ "FAST_TRACK" :=
  ⟨_, rfl, rfl, rfl, rfl, rfl, rfl,
    show ("MANUAL_REVIEW" : String) ≠ "FAST_TRACK" by decide⟩

/-- Witness for `c5_parse_failure_record` at a concrete failure. -/
theorem c5_parse_failure_record_witness :
    ∃ r : ClaimResult,
      process_claim egSearchNone (Except.error "unreadable PDF")
        "claims/doc1.pdf" = Except.ok r ∧
      r.status = "FAILED" ∧ r.extractedFields = [] ∧
      r.missingFields = MANDATORY_FIELDS ∧
      r.recommendedRoute = "MANUAL_REVIEW" ∧
      r.reasoning = "Document parsing failed: " ++ "unreadable PDF" ∧
      r.recommendedRoute ≠ "FAST_TRACK" :=
  c5_parse_failure_record egSearchNone "unreadable PDF" "claims/doc1.pdf"
